import Mathlib

/-!
Shallow embedding of the Illumi render/export core.

Sources embedded:
* `types.ts` — `MediaType`, `Clip`, `Track`, `Asset`, `JobStatus`, `RenderJob`.
* `RenderEngine.ts` (`RenderGraph.resolve`) — topmost-clip composition resolution.
* `OfflineRenderEngine.ts` — multi-layer export compositor
  (`renderFrame`, `drawClip`, `getSource`).
* `ExportService.ts` — `WebCodecsEncoder.encodeFrame` keyframe decision,
  `ExportManager.processJob` frame loop, `updateJob`, `cancelJob`.

Times and timestamps are rationals (JS numbers used here hold exact decimal
values in every scenario of interest); JS `%` and `Math.trunc`/`Math.round`
are modelled explicitly (`jsMod`, `jsTrunc`, `jsRound`).
-/

namespace Illumi

/-- Media kinds, from `types.ts` (`MediaType`). -/
inductive MediaType where
  | VIDEO : MediaType
  | IMAGE : MediaType
  | AUDIO : MediaType
  | EMPTY : MediaType
  deriving DecidableEq, Repr

/-- Timeline clip, from `types.ts` (`Clip`).  Only the fields read by the
render/export core are kept.  `url` and `zIndex` are optional fields read by
`OfflineRenderEngine.ts` (`clip.url`, `clip.zIndex || 0`). -/
structure Clip where
  id : String
  assetId : String
  trackId : String
  startTime : ℚ
  duration : ℚ
  offset : ℚ
  type : MediaType
  url : Option String := none
  zIndex : Option ℤ := none
  deriving DecidableEq, Repr

/-- Media asset, from `types.ts` (`Asset`); the resolver only reads `id`. -/
structure Asset where
  id : String
  type : MediaType
  url : String
  deriving DecidableEq, Repr

/-- Track kind, from `types.ts` (`Track.type : 'video' | 'audio'`). -/
inductive TrackKind where
  | video : TrackKind
  | audio : TrackKind
  deriving DecidableEq, Repr

/-- Timeline track, from `types.ts` (`Track`). -/
structure Track where
  id : String
  kind : TrackKind
  isMuted : Bool
  isLocked : Bool
  deriving DecidableEq, Repr

/-! ### RenderGraph.resolve (RenderEngine.ts) -/

/-- JS `String.prototype.startsWith`, modelled as a character-prefix test. -/
def strStartsWith (s p : String) : Bool :=
  p.data.isPrefixOf s.data

/-- The filter predicate of `RenderGraph.resolve`:
`c.trackId.startsWith('V') && time >= c.startTime && time < (c.startTime + c.duration)`. -/
def visibleOnV (time : ℚ) (c : Clip) : Bool :=
  strStartsWith c.trackId "V" && decide (time ≥ c.startTime) &&
    decide (time < c.startTime + c.duration)

/-- The comparator of `RenderGraph.resolve`'s
`sort((a, b) => b.trackId.localeCompare(a.trackId))`: a stable descending sort
by `trackId`, so `a` may stay before `b` exactly when `b.trackId ≤ a.trackId`. -/
def localeDesc (a b : Clip) : Bool :=
  decide (b.trackId ≤ a.trackId)

/-- `RenderGraph.resolve` (RenderEngine.ts lines 29-47): filters the clips
visible on a `V` track at `time`, sorts them descending by `trackId`, takes
the first as the single top clip, looks up its asset, and returns the pair
(or `null`). -/
def resolve (time : ℚ) (clips : List Clip) (assets : List Asset) :
    Option (Clip × Asset) :=
  let activeClips := clips.filter (visibleOnV time)
  if activeClips.length = 0 then none
  else
    match (activeClips.mergeSort localeDesc).head? with
    | none => none
    | some topClip =>
      match assets.find? (fun a => a.id == topClip.assetId) with
      | none => none
      | some asset => some (topClip, asset)

/-- The sequence of layers `RenderGraph.resolve` yields (at most one). -/
def resolvedSeq (time : ℚ) (clips : List Clip) (assets : List Asset) :
    List Clip :=
  (resolve time clips assets).toList.map Prod.fst

/-! ### OfflineRenderEngine (OfflineRenderEngine.ts) -/

/-- The active-clip filter shared by `OfflineRenderEngine.renderFrame`:
`time >= c.startTime && time < c.startTime + c.duration`. -/
def isActive (time : ℚ) (c : Clip) : Bool :=
  decide (time ≥ c.startTime) && decide (time < c.startTime + c.duration)

/-- Comparator of `sort((a, b) => (a.zIndex || 0) - (b.zIndex || 0))`:
stable ascending by `zIndex` defaulting to 0. -/
def zAsc (a b : Clip) : Bool :=
  decide (a.zIndex.getD 0 ≤ b.zIndex.getD 0)

/-- `OfflineRenderEngine.renderFrame` lines 38-40: the active clips at `time`,
sorted ascending by z-index (stable, so ties keep input order). -/
def activeClipsExport (time : ℚ) (clips : List Clip) : List Clip :=
  (clips.filter (isActive time)).mergeSort zAsc

/-- A decodable media source handle (video element / image element). -/
inductive Source where
  | video : String → Source
  | image : String → Source
  deriving DecidableEq, Repr

/-- Load environment: whether the media behind a url loads successfully
(`true`) or fires its error event (`false`). -/
def LoadEnv := String → Bool

/-- `OfflineRenderEngine.getSource` (lines 94-131): a clip without a url
yields no source; VIDEO/IMAGE clips load their url, and the awaited promise
rejects (an exception propagates) when the element errors; other media kinds
yield no source.  The per-asset element cache is not modelled: the load
environment is a pure function of the url, so a cached and a fresh load
agree. -/
def getSource (env : LoadEnv) (c : Clip) : Except String (Option Source) :=
  match c.url with
  | none => Except.ok none
  | some u =>
    match c.type with
    | MediaType.VIDEO =>
        if env u then Except.ok (some (Source.video u)) else Except.error "media load error"
    | MediaType.IMAGE =>
        if env u then Except.ok (some (Source.image u)) else Except.error "media load error"
    | _ => Except.ok none

/-- One composited layer: the record of a `drawImage` call for a clip. -/
structure DrawOp where
  clipId : String
  source : Source
  deriving DecidableEq, Repr

/-- `OfflineRenderEngine.drawClip`: obtain the source (propagating a load
failure); draw nothing when there is no source; otherwise draw the layer. -/
def drawClip (env : LoadEnv) (c : Clip) : Except String (Option DrawOp) :=
  match getSource env c with
  | Except.error e => Except.error e
  | Except.ok none => Except.ok none
  | Except.ok (some s) => Except.ok (some ⟨c.id, s⟩)

/-- The `for (const clip of activeClips) await this.drawClip(clip, time)` loop
of `renderFrame`: draws each layer in order, an exception aborting the frame. -/
def drawLayers (env : LoadEnv) : List Clip → Except String (List DrawOp)
  | [] => Except.ok []
  | c :: rest =>
    match drawClip env c with
    | Except.error e => Except.error e
    | Except.ok none => drawLayers env rest
    | Except.ok (some op) =>
      match drawLayers env rest with
      | Except.error e => Except.error e
      | Except.ok ops => Except.ok (op :: ops)

/-- `OfflineRenderEngine.renderFrame` (lines 30-49): clear, compute the
sorted active clips, draw every layer in order.  The value is the ordered
list of layers composited into the frame. -/
def renderFrame (env : LoadEnv) (time : ℚ) (clips : List Clip) :
    Except String (List DrawOp) :=
  drawLayers env (activeClipsExport time clips)

/-- Timestamp of the produced `VideoFrame`: `time * 1000000` microseconds. -/
def frameTimestampMicros (time : ℚ) : ℚ := time * 1000000

/-! ### WebCodecsEncoder (ExportService.ts) -/

/-- JS `Math.trunc`-style truncation of a rational toward zero (the integer
part JS division-based `%` is built on). -/
def jsTrunc (q : ℚ) : ℤ := Int.tdiv q.num q.den

/-- JS remainder `a % b`: `a - b * trunc(a / b)`. -/
def jsMod (a b : ℚ) : ℚ := a - b * (jsTrunc (a / b) : ℚ)

/-- `WebCodecsEncoder.encodeFrame` line 48:
`const keyFrame = (frame.timestamp! / 1000000) % 2 === 0`. -/
def keyFrameForced (tsMicros : ℚ) : Bool :=
  decide (jsMod (tsMicros / 1000000) 2 = 0)

/-- Modelled from the spec: the keyframe cadence formula the spec states,
`floor(timestamp_seconds) % 2 == 0` — written for comparison with the code's
`keyFrameForced`, which has no `floor`. -/
def specKeyFrameForced (tsMicros : ℚ) : Bool :=
  decide (⌊tsMicros / 1000000⌋ % 2 = 0)

/-! ### ExportManager (ExportService.ts) -/

/-- Job lifecycle states, from `types.ts` (`JobStatus`). -/
inductive JobStatus where
  | PENDING : JobStatus
  | RENDERING : JobStatus
  | ENCODING : JobStatus
  | COMPLETED : JobStatus
  | FAILED : JobStatus
  | CANCELLED : JobStatus
  deriving DecidableEq, Repr

/-- Terminal states per the spec's state machine. -/
def JobStatus.isTerminal : JobStatus → Bool
  | JobStatus.COMPLETED => true
  | JobStatus.FAILED => true
  | JobStatus.CANCELLED => true
  | _ => false

/-- Export job record, from `types.ts` (`RenderJob`); config fields that the
job-list operations never read are omitted. -/
structure RenderJob where
  id : String
  projectId : String
  status : JobStatus
  progress : ℤ
  logs : List String
  error : Option String := none
  resultUrl : Option String := none
  deriving DecidableEq, Repr

/-- A `Partial<RenderJob>` update: present fields override, absent keep. -/
structure JobUpdate where
  status : Option JobStatus := none
  progress : Option ℤ := none
  logs : Option (List String) := none
  error : Option String := none
  resultUrl : Option String := none
  deriving DecidableEq, Repr

/-- The spread `{ ...this.jobs[index], ...updates }` of `updateJob`. -/
def applyUpdate (j : RenderJob) (u : JobUpdate) : RenderJob :=
  { id := j.id
    projectId := j.projectId
    status := u.status.getD j.status
    progress := u.progress.getD j.progress
    logs := u.logs.getD j.logs
    error := u.error.or j.error
    resultUrl := u.resultUrl.or j.resultUrl }

/-- `ExportManager.updateJob` (lines 222-228): find the first job with the
id (`findIndex`); if found, replace it by the merged record and `notify()`
(the Boolean records whether observers were notified); otherwise do nothing. -/
def updateJob : List RenderJob → String → JobUpdate → List RenderJob × Bool
  | [], _, _ => ([], false)
  | j :: rest, id, u =>
    if j.id == id then (applyUpdate j u :: rest, true)
    else
      let r := updateJob rest id u
      (j :: r.1, r.2)

/-- `ExportManager.cancelJob` (lines 232-234):
`this.updateJob(id, { status: JobStatus.CANCELLED })`. -/
def cancelJob (jobs : List RenderJob) (id : String) : List RenderJob × Bool :=
  updateJob jobs id { status := some JobStatus.CANCELLED }

/-! ### processJob frame loop (ExportService.ts lines 183-207) -/

/-- Outcome of the render loop: ran all frames (then the job is finalized and
marked COMPLETED), stopped at a cancellation poll (status stays CANCELLED),
or threw (the catch handler marks the job FAILED with the message). -/
inductive JobOutcome where
  | completed : JobOutcome
  | cancelled : JobOutcome
  | failed : String → JobOutcome
  deriving DecidableEq, Repr

/-- `const totalFrames = Math.ceil(duration * job.config.fps)` (line 183). -/
def totalFramesFor (duration fps : ℚ) : ℕ := (Int.ceil (duration * fps)).toNat

/-- The frame loop of `processJob` (lines 186-203), from frame index `i` with
`rem` iterations left: poll cancellation at the top of each iteration
(returning with no further work when the job status is CANCELLED — an
in-flight frame is never interrupted, only the next one prevented), then
render and encode frame `i`; a thrown error aborts the loop.  The value is
the list of frames submitted to the encoder plus the outcome. -/
def renderLoop (cancelled : ℕ → Bool) (frame : ℕ → Except String (List DrawOp)) :
    ℕ → ℕ → List (List DrawOp) × JobOutcome
  | _, 0 => ([], JobOutcome.completed)
  | i, rem + 1 =>
    if cancelled i then ([], JobOutcome.cancelled)
    else
      match frame i with
      | Except.error e => ([], JobOutcome.failed e)
      | Except.ok f =>
        let rest := renderLoop cancelled frame (i + 1) rem
        (f :: rest.1, rest.2)

/-- Frame `i` of a job: `time = i * frameDuration` with
`frameDuration = 1 / fps`, rendered by the offline engine (line 192-196). -/
def frameAt (env : LoadEnv) (clips : List Clip) (fps : ℚ) (i : ℕ) :
    Except String (List DrawOp) :=
  renderFrame env ((i : ℚ) * (1 / fps)) clips

/-- `processJob`'s whole render phase: `totalFrames` loop iterations over the
per-frame render/encode, under a cancellation schedule `cancelled`
(`cancelled i` = the job status reads CANCELLED at the top of iteration `i`). -/
def exportJobRun (cancelled : ℕ → Bool) (env : LoadEnv) (clips : List Clip)
    (duration fps : ℚ) : List (List DrawOp) × JobOutcome :=
  renderLoop cancelled (frameAt env clips fps) 0 (totalFramesFor duration fps)

/-! ### Progress updates (ExportService.ts lines 198-202) -/

/-- JS `Math.round`: half-up rounding, `⌊q + 1/2⌋` for the values in range. -/
def jsRound (q : ℚ) : ℤ := ⌊q + 1 / 2⌋

/-- `Math.round((i / totalFrames) * 100)` (line 199). -/
def progressValue (i total : ℕ) : ℤ :=
  jsRound ((i : ℚ) / (total : ℚ) * 100)

/-- The progress values published during one job's RENDERING phase: one
update per frame index `i` with `i % 5 === 0` (line 198), in loop order. -/
def progressUpdates (total : ℕ) : List ℤ :=
  ((List.range total).filter (fun i => i % 5 == 0)).map
    (fun i => progressValue i total)

/-! ### Concrete timelines and jobs used as test inputs -/

/-- Scenario B bottom clip: track `V1`, window `[0, 10)`. -/
def clipV1 : Clip :=
  { id := "c1", assetId := "a1", trackId := "V1", startTime := 0, duration := 10,
    offset := 0, type := MediaType.VIDEO }

/-- Scenario B top clip: track `V2`, same window `[0, 10)`. -/
def clipV2 : Clip :=
  { id := "c2", assetId := "a2", trackId := "V2", startTime := 0, duration := 10,
    offset := 0, type := MediaType.VIDEO }

def assetA1 : Asset := { id := "a1", type := MediaType.VIDEO, url := "u1" }

def assetA2 : Asset := { id := "a2", type := MediaType.VIDEO, url := "u2" }

/-- A muted video track named `V1`. -/
def mutedTrackV1 : Track :=
  { id := "V1", kind := TrackKind.video, isMuted := true, isLocked := false }

/-- Export-engine layer clips (three active image layers, same window). -/
def imgL1 : Clip :=
  { id := "L1", assetId := "A1", trackId := "V1", startTime := 0, duration := 1,
    offset := 0, type := MediaType.IMAGE, url := some "u1" }

def imgL2 : Clip :=
  { id := "L2", assetId := "A2", trackId := "V2", startTime := 0, duration := 1,
    offset := 0, type := MediaType.IMAGE, url := some "u2" }

def imgL3 : Clip :=
  { id := "L3", assetId := "A3", trackId := "V3", startTime := 0, duration := 1,
    offset := 0, type := MediaType.IMAGE, url := some "u3" }

/-- The middle layer with an unresolvable asset (no url). -/
def imgL2NoUrl : Clip :=
  { id := "L2", assetId := "A2", trackId := "V2", startTime := 0, duration := 1,
    offset := 0, type := MediaType.IMAGE, url := none }

/-- Distinct explicit z-indices for the stacking-order check. -/
def exClipBot : Clip :=
  { id := "B", assetId := "A1", trackId := "V1", startTime := 0, duration := 10,
    offset := 0, type := MediaType.IMAGE, url := some "u1", zIndex := some 0 }

def exClipTop : Clip :=
  { id := "T", assetId := "A2", trackId := "V2", startTime := 0, duration := 10,
    offset := 0, type := MediaType.IMAGE, url := some "u2", zIndex := some 1 }

/-- Environment where every asset loads. -/
def envAllOk : LoadEnv := fun _ => true

/-- Environment where exactly the asset behind `u2` fails to load. -/
def envU2Fails : LoadEnv := fun u => !(u == "u2")

/-- An audio clip (audio clips yield no drawable source). -/
def audioClip : Clip :=
  { id := "S", assetId := "A4", trackId := "A1", startTime := 0, duration := 10,
    offset := 0, type := MediaType.AUDIO, url := some "u4" }

/-- A job that already reached the terminal state COMPLETED. -/
def jobDone : RenderJob :=
  { id := "j1", projectId := "default", status := JobStatus.COMPLETED,
    progress := 100, logs := ["Job Queued"], resultUrl := some "blob:demo" }

/-- What `cancelJob` turns `jobDone` into. -/
def jobDoneCancelled : RenderJob :=
  { jobDone with status := JobStatus.CANCELLED }

/-! ## Helper lemmas -/

/-- Evaluation of a two-element merge sort. -/
theorem mergeSort_pair {α : Type} (le : α → α → Bool) (a b : α) :
    [a, b].mergeSort le = if le a b then [a, b] else [b, a] := by
  simp [List.mergeSort, List.merge]

/-- Truncation of an integer-valued rational is that integer. -/
theorem jsTrunc_intCast (k : ℤ) : jsTrunc (k : ℚ) = k := by
  unfold jsTrunc
  rw [Rat.num_intCast, Rat.den_intCast]
  simp [Int.tdiv_one]

/-- Membership in the export engine's active-clip list is exactly membership
in the input plus the half-open interval test. -/
theorem mem_activeClipsExport {t : ℚ} {clips : List Clip} {c : Clip} :
    c ∈ activeClipsExport t clips ↔
      c ∈ clips ∧ (c.startTime ≤ t ∧ t < c.startTime + c.duration) := by
  unfold activeClipsExport
  rw [List.mem_mergeSort, List.mem_filter]
  simp [isActive, ge_iff_le, and_assoc]

/-- A clip whose url (if any) loads fine always yields a source, never an
exception. -/
theorem getSource_isOk {env : LoadEnv} {c : Clip}
    (h : ∀ u, c.url = some u → env u = true) :
    ∃ s, getSource env c = Except.ok s := by
  unfold getSource
  cases hu : c.url with
  | none => exact ⟨none, rfl⟩
  | some u =>
    have he := h u hu
    cases htype : c.type <;> simp [he]

/-- Drawing a clip whose url (if any) loads fine never throws. -/
theorem drawClip_isOk {env : LoadEnv} {c : Clip}
    (h : ∀ u, c.url = some u → env u = true) :
    ∃ o, drawClip env c = Except.ok o := by
  obtain ⟨s, hs⟩ := getSource_isOk h
  cases s with
  | none => exact ⟨none, by simp [drawClip, hs]⟩
  | some src => exact ⟨some ⟨c.id, src⟩, by simp [drawClip, hs]⟩

/-- Compositing layers whose urls all load fine never throws. -/
theorem drawLayers_isOk {env : LoadEnv} :
    ∀ {l : List Clip}, (∀ c ∈ l, ∀ u, c.url = some u → env u = true) →
      ∃ ops, drawLayers env l = Except.ok ops := by
  intro l
  induction l with
  | nil => exact fun _ => ⟨[], rfl⟩
  | cons c rest ih =>
    intro h
    obtain ⟨o, ho⟩ := drawClip_isOk (h c (List.mem_cons_self c rest))
    obtain ⟨ops, hops⟩ := ih (fun x hx => h x (List.mem_cons_of_mem c hx))
    cases o with
    | none => exact ⟨ops, by simp [drawLayers, ho, hops]⟩
    | some op => exact ⟨op :: ops, by simp [drawLayers, ho, hops]⟩

/-- Rendering a frame over clips whose urls all load fine never throws. -/
theorem renderFrame_isOk {env : LoadEnv} {t : ℚ} {clips : List Clip}
    (h : ∀ c ∈ clips, ∀ u, c.url = some u → env u = true) :
    ∃ ops, renderFrame env t clips = Except.ok ops := by
  unfold renderFrame
  exact drawLayers_isOk (fun c hc => h c (mem_activeClipsExport.mp hc).1)

/-- When no cancellation is ever observed and no frame throws, the loop runs
all remaining iterations and completes. -/
theorem renderLoop_completed {cancelled : ℕ → Bool}
    {frame : ℕ → Except String (List DrawOp)}
    (hc : ∀ i, cancelled i = false) (hf : ∀ i, ∃ v, frame i = Except.ok v) :
    ∀ rem i, (renderLoop cancelled frame i rem).2 = JobOutcome.completed ∧
      (renderLoop cancelled frame i rem).1.length = rem := by
  intro rem
  induction rem with
  | zero => exact fun i => ⟨rfl, rfl⟩
  | succ n ih =>
    intro i
    obtain ⟨v, hv⟩ := hf i
    have := ih (i + 1)
    simp [renderLoop, hc i, hv]
    exact ⟨this.1, this.2⟩

/-- When the cancellation flag is observed from some poll index `m` on and no
frame throws, a loop that has not yet passed `m` ends cancelled, having
submitted at most `m - i` further frames. -/
theorem renderLoop_cancelled_after {cancelled : ℕ → Bool}
    {frame : ℕ → Except String (List DrawOp)} {m : ℕ}
    (hc : ∀ j, m ≤ j → cancelled j = true)
    (hf : ∀ j, ∃ v, frame j = Except.ok v) :
    ∀ rem i, i ≤ m → m < i + rem →
      (renderLoop cancelled frame i rem).2 = JobOutcome.cancelled ∧
        (renderLoop cancelled frame i rem).1.length ≤ m - i := by
  intro rem
  induction rem with
  | zero =>
    intro i him hlt
    omega
  | succ n ih =>
    intro i him hlt
    by_cases hci : cancelled i = true
    · simp [renderLoop, hci]
    · have hilt : i < m := by
        rcases Nat.lt_or_ge i m with h1 | h1
        · exact h1
        · exact absurd (hc i h1) hci
      obtain ⟨v, hv⟩ := hf i
      have hrec := ih (i + 1) hilt (by omega)
      simp [renderLoop, hci, hv]
      exact ⟨hrec.1, by omega⟩

/-- Unfolding of `updateJob` at a non-matching head. -/
theorem updateJob_cons_false {j : RenderJob} {rest : List RenderJob}
    {id : String} {u : JobUpdate} (h : (j.id == id) = false) :
    updateJob (j :: rest) id u =
      (j :: (updateJob rest id u).1, (updateJob rest id u).2) := by
  simp [updateJob, h]

/-- Unfolding of `updateJob` at a matching head. -/
theorem updateJob_cons_true {j : RenderJob} {rest : List RenderJob}
    {id : String} {u : JobUpdate} (h : (j.id == id) = true) :
    updateJob (j :: rest) id u = (applyUpdate j u :: rest, true) := by
  simp [updateJob, h]

/-- An update against an id that matches no job leaves the list untouched
and performs no notification. -/
theorem updateJob_not_found :
    ∀ (jobs : List RenderJob) (id : String) (u : JobUpdate),
      (∀ j ∈ jobs, (j.id == id) = false) → updateJob jobs id u = (jobs, false) := by
  intro jobs id u
  induction jobs with
  | nil => exact fun _ => rfl
  | cons j rest ih =>
    intro h
    have hj := h j (List.mem_cons_self j rest)
    have hrest := ih (fun x hx => h x (List.mem_cons_of_mem j hx))
    simp [updateJob, hj, hrest]

/-- Claim C2 (corrected claim refuted): `cancelJob` on a job already in the
terminal state COMPLETED is not a no-op — it rewrites the record's status to
CANCELLED, changing the job record. -/
theorem C2_cancel_mutates_terminal_job :
    jobDone.status.isTerminal = true ∧
      (cancelJob [jobDone] "j1").1 = [jobDoneCancelled] ∧
      jobDoneCancelled ≠ jobDone := by
  refine ⟨rfl, rfl, ?_⟩
  decide

/-- Claim C2 (amended): neither `updateJob` nor `cancelJob` guards terminal
states — whenever any job with the requested id exists, `cancelJob`
unconditionally rewrites the first such job's status to CANCELLED, whatever
its current status (terminal or not). -/
theorem C2_amended_cancel_unconditional :
    ∀ (jobs : List RenderJob) (id : String), (∃ j ∈ jobs, j.id = id) →
      ∃ j ∈ (cancelJob jobs id).1, j.id = id ∧ j.status = JobStatus.CANCELLED := by
  intro jobs id
  induction jobs with
  | nil => rintro ⟨j, hj, _⟩; cases hj
  | cons j rest ih =>
    intro hex
    by_cases hj : j.id == id
    · refine ⟨applyUpdate j { status := some JobStatus.CANCELLED }, ?_, ?_, rfl⟩
      · show _ ∈ (updateJob (j :: rest) id _).1
        rw [updateJob_cons_true hj]
        exact List.mem_cons_self _ _
      · simpa [applyUpdate] using (beq_iff_eq.mp hj)
    · have hjf : (j.id == id) = false := by simpa using hj
      obtain ⟨x, hx, hxid⟩ := hex
      rcases List.mem_cons.mp hx with hxj | hxrest
      · subst hxj
        rw [hxid] at hjf
        simp at hjf
      · obtain ⟨y, hy, hyid, hyst⟩ := ih ⟨x, hxrest, hxid⟩
        refine ⟨y, ?_, hyid, hyst⟩
        show _ ∈ (updateJob (j :: rest) id _).1
        rw [updateJob_cons_false hjf]
        exact List.mem_cons_of_mem j hy

/-- Witness for `C2_amended_cancel_unconditional` at the concrete COMPLETED
job list. -/
theorem C2_amended_cancel_unconditional_witness :
    ∃ j ∈ (cancelJob [jobDone] "j1").1,
      j.id = "j1" ∧ j.status = JobStatus.CANCELLED :=
  C2_amended_cancel_unconditional [jobDone] "j1" ⟨jobDone, by simp, rfl⟩

/-- Claim C10 (confirmed): `updateJob` — hence also `cancelJob` — with a job
id that is not in the job list returns the list unchanged and reports that no
observer notification happened. -/
theorem C10_unknown_id_noop :
    ∀ (jobs : List RenderJob) (id : String) (u : JobUpdate),
      (∀ j ∈ jobs, j.id ≠ id) →
      updateJob jobs id u = (jobs, false) ∧ cancelJob jobs id = (jobs, false) := by
  intro jobs id u h
  have hb : ∀ j ∈ jobs, (j.id == id) = false := by
    intro j hj
    simpa using h j hj
  exact ⟨updateJob_not_found jobs id u hb, updateJob_not_found jobs id _ hb⟩

/-- Witness for `C10_unknown_id_noop` on a singleton list and a foreign id. -/
theorem C10_unknown_id_noop_witness :
    updateJob [jobDone] "nope" { progress := some 50 } = ([jobDone], false) ∧
      cancelJob [jobDone] "nope" = ([jobDone], false) :=
  C10_unknown_id_noop [jobDone] "nope" { progress := some 50 }
    (by intro j hj; simp at hj; subst hj; decide)

/-- Claim C5 (confirmed): cancellation is polled at the top of every frame
iteration of the loop and never interrupts an in-flight frame; when the
CANCELLED status is observable from poll `k + 1` on (`cancelJob` issued
after frame `k`, possibly while frame `k + 1` is already in flight), a job of
`n > k + 1` frames ends cancelled with at most `k + 1` frames encoded. -/
theorem C5_cooperative_cancellation :
    ∀ (cancelled : ℕ → Bool) (frame : ℕ → Except String (List DrawOp)) (n k : ℕ),
      (∀ i, k + 1 ≤ i → cancelled i = true) →
      (∀ i, ∃ v, frame i = Except.ok v) →
      k + 1 < n →
      (renderLoop cancelled frame 0 n).2 = JobOutcome.cancelled ∧
        (renderLoop cancelled frame 0 n).1.length ≤ k + 1 := by
  intro cancelled frame n k hc hf hlt
  have h := renderLoop_cancelled_after hc hf n 0 (Nat.zero_le _) (by omega)
  simpa using h

/-- Witness for `C5_cooperative_cancellation`: Scenario D shape — cancel
observable from frame 4 of a 20-frame job gives CANCELLED with at most 4
frames encoded. -/
theorem C5_cooperative_cancellation_witness :
    (renderLoop (fun i => decide (4 ≤ i)) (fun _ => Except.ok []) 0 20).2 =
        JobOutcome.cancelled ∧
      (renderLoop (fun i => decide (4 ≤ i)) (fun _ => Except.ok []) 0 20).1.length ≤ 4 :=
  C5_cooperative_cancellation (fun i => decide (4 ≤ i)) (fun _ => Except.ok []) 20 3
    (by intro i hi; simpa using hi) (fun i => ⟨[], rfl⟩) (by omega)

/-- Claim C6 (corrected claim refuted): the code's keyframe decision
`(timestamp / 1000000) % 2 === 0` has no `floor`; at the frame rendered for
time 0.1 s (timestamp 100000 µs) the spec's formula
`floor(timestamp_seconds) % 2 == 0` demands a keyframe while the code does
not force one. -/
theorem C6_keyframe_formula_mismatch :
    frameTimestampMicros (1 / 10) = 100000 ∧
      specKeyFrameForced 100000 = true ∧ keyFrameForced 100000 = false := by
  refine ⟨by norm_num [frameTimestampMicros], by norm_num [specKeyFrameForced], ?_⟩
  norm_num [keyFrameForced, jsMod, jsTrunc, show Int.tdiv 1 20 = 0 from rfl]

/-- Claim C6 (amended): `encodeFrame` forces a keyframe exactly when the
frame's timestamp is a whole even number of seconds (an integer multiple of
2000000 µs), not on the spec's `floor(timestamp_seconds) % 2 == 0` cadence. -/
theorem C6_amended_keyframe_even_seconds :
    ∀ ts : ℚ, keyFrameForced ts = true ↔ ∃ k : ℤ, ts = 2000000 * k := by
  intro ts
  unfold keyFrameForced jsMod
  rw [decide_eq_true_eq]
  constructor
  · intro h
    refine ⟨jsTrunc (ts / 1000000 / 2), ?_⟩
    have ha : ts / 1000000 = 2 * (jsTrunc (ts / 1000000 / 2) : ℚ) := by linarith
    have h2 : ts / 1000000 * 1000000 = ts := div_mul_cancel₀ ts (by norm_num)
    linarith
  · rintro ⟨k, rfl⟩
    have ha : (2000000 : ℚ) * k / 1000000 = 2 * (k : ℚ) := by ring
    rw [ha]
    have hb : (2 : ℚ) * (k : ℚ) / 2 = (k : ℚ) := by ring
    rw [hb, jsTrunc_intCast]
    ring

/-- Claim C9 (confirmed): progress updates are published exactly on every
5th frame with value `round(100 * i / totalFrames)` (that is the definition
of `progressUpdates`), and the published sequence is non-decreasing; for a
20-frame job it is `[0, 25, 50, 75]`. -/
theorem C9_progress_monotone :
    (∀ total : ℕ, List.Pairwise (fun a b : ℤ => a ≤ b) (progressUpdates total)) ∧
      progressUpdates 20 = [0, 25, 50, 75] := by
  constructor
  · intro total
    rcases Nat.eq_zero_or_pos total with h0 | hpos
    · subst h0
      simp [progressUpdates]
    · unfold progressUpdates
      refine List.Pairwise.map _ ?_
        (List.Pairwise.filter _ (List.pairwise_lt_range total))
      intro a b hab
      unfold progressValue jsRound
      apply Int.floor_le_floor
      have htot : (0 : ℚ) < total := by exact_mod_cast hpos
      have hab2 : (a : ℚ) ≤ (b : ℚ) := by exact_mod_cast Nat.le_of_lt hab
      gcongr
  · norm_num [progressUpdates, progressValue, jsRound, List.range_succ]

/-- Claim C4 (confirmed): a clip is in the export engine's resolved layer
list exactly when its half-open active interval
`[startTime, startTime + duration)` contains the time (visible at its exact
start, not at its exact end), and for a time outside every clip's interval
both the export resolution and `RenderGraph.resolve` yield nothing. -/
theorem C4_half_open_interval :
    (∀ (t : ℚ) (clips : List Clip) (c : Clip),
        c ∈ activeClipsExport t clips ↔
          c ∈ clips ∧ (c.startTime ≤ t ∧ t < c.startTime + c.duration)) ∧
      (∀ (t : ℚ) (clips : List Clip),
        (∀ c ∈ clips, ¬(c.startTime ≤ t ∧ t < c.startTime + c.duration)) →
          activeClipsExport t clips = []) ∧
      (∀ (t : ℚ) (clips : List Clip) (assets : List Asset),
        (∀ c ∈ clips, ¬(c.startTime ≤ t ∧ t < c.startTime + c.duration)) →
          resolve t clips assets = none) := by
  refine ⟨fun t clips c => mem_activeClipsExport, ?_, ?_⟩
  · intro t clips h
    unfold activeClipsExport
    have hfil : clips.filter (isActive t) = [] := by
      rw [List.filter_eq_nil_iff]
      intro c hc
      simp only [isActive, Bool.and_eq_true, decide_eq_true_eq, ge_iff_le, not_and]
      intro h1 h2
      exact h c hc ⟨h1, h2⟩
    rw [hfil, List.mergeSort_nil]
  · intro t clips assets h
    unfold resolve
    have hfil : clips.filter (visibleOnV t) = [] := by
      rw [List.filter_eq_nil_iff]
      intro c hc
      simp only [visibleOnV, Bool.and_eq_true, decide_eq_true_eq, ge_iff_le, not_and]
      intro hab h1
      exact h c hc ⟨hab.2, h1⟩
    simp [hfil]

/-- Witness for `C4_half_open_interval`: Scenario A — the `[0, 10)` clip is
resolved at its exact start time 0 and not at its exact end time 10. -/
theorem C4_half_open_interval_witness :
    clipV1 ∈ activeClipsExport 0 [clipV1] ∧
      activeClipsExport 10 [clipV1] = [] ∧
      resolve 10 [clipV1] [assetA1] = none := by
  refine ⟨?_, ?_, ?_⟩
  · exact (C4_half_open_interval.1 0 [clipV1] clipV1).mpr
      ⟨by simp, by norm_num [clipV1], by norm_num [clipV1]⟩
  · exact C4_half_open_interval.2.1 10 [clipV1]
      (by intro c hc; simp at hc; subst hc; norm_num [clipV1])
  · exact C4_half_open_interval.2.2 10 [clipV1] [assetA1]
      (by intro c hc; simp at hc; subst hc; norm_num [clipV1])

/-! ## Composition-resolver helpers -/

/-- The descending `trackId` comparator is transitive. -/
theorem localeDesc_trans :
    ∀ a b c : Clip, localeDesc a b = true → localeDesc b c = true →
      localeDesc a c = true := by
  intro x y z h1 h2
  simp only [localeDesc, decide_eq_true_eq] at h1 h2 ⊢
  exact le_trans h2 h1

/-- The descending `trackId` comparator is total. -/
theorem localeDesc_total :
    ∀ a b : Clip, (localeDesc a b || localeDesc b a) = true := by
  intro x y
  simp only [localeDesc, Bool.or_eq_true, decide_eq_true_eq]
  exact le_total y.trackId x.trackId

/-- Anatomy of a successful `RenderGraph.resolve`: the returned clip is one
of the input clips, it passes the visibility filter, and its `trackId` is
maximal among all clips passing the filter — it is the topmost layer. -/
theorem resolve_eq_some_spec {t : ℚ} {clips : List Clip} {assets : List Asset}
    {c : Clip} {a : Asset} (h : resolve t clips assets = some (c, a)) :
    c ∈ clips ∧ visibleOnV t c = true ∧
      ∀ c' ∈ clips, visibleOnV t c' = true → c'.trackId ≤ c.trackId := by
  simp only [resolve] at h
  by_cases hlen : (clips.filter (visibleOnV t)).length = 0
  · rw [if_pos hlen] at h
    exact Option.noConfusion h
  · rw [if_neg hlen] at h
    cases hh : ((clips.filter (visibleOnV t)).mergeSort localeDesc).head? with
    | none =>
      rw [hh] at h
      exact Option.noConfusion h
    | some top =>
      rw [hh] at h
      dsimp only at h
      cases hf : assets.find? (fun x => x.id == top.assetId) with
      | none =>
        rw [hf] at h
        exact Option.noConfusion h
      | some asset =>
        rw [hf] at h
        have hpair : (top, asset) = (c, a) := Option.some.inj h
        have htop : top = c := congrArg Prod.fst hpair
        subst htop
        obtain ⟨tail, hcons⟩ := List.head?_eq_some_iff.mp hh
        have hmemsort : top ∈ (clips.filter (visibleOnV t)).mergeSort localeDesc := by
          rw [hcons]
          exact List.mem_cons_self _ _
        have hmem := List.mem_filter.mp (List.mem_mergeSort.mp hmemsort)
        refine ⟨hmem.1, hmem.2, ?_⟩
        intro c' hc' hvis
        have hc'sort : c' ∈ (clips.filter (visibleOnV t)).mergeSort localeDesc :=
          List.mem_mergeSort.mpr (List.mem_filter.mpr ⟨hc', hvis⟩)
        rw [hcons] at hc'sort
        rcases List.mem_cons.mp hc'sort with heq | htail



        · exact le_of_eq (by rw [heq])
        · have hsorted :=
            List.sorted_mergeSort localeDesc_trans localeDesc_total
              (clips.filter (visibleOnV t))
          rw [hcons] at hsorted
          have hrel := List.rel_of_pairwise_cons hsorted htail
          simpa [localeDesc, decide_eq_true_eq] using hrel

/-- The Scenario B bottom clip passes the visibility filter at time 1. -/
theorem visibleOnV_one_clipV1 : visibleOnV 1 clipV1 = true := by
  simp only [visibleOnV, clipV1, Bool.and_eq_true, decide_eq_true_eq, ge_iff_le]
  refine ⟨⟨by decide, by norm_num⟩, by norm_num⟩

/-- The Scenario B top clip passes the visibility filter at time 1. -/
theorem visibleOnV_one_clipV2 : visibleOnV 1 clipV2 = true := by
  simp only [visibleOnV, clipV2, Bool.and_eq_true, decide_eq_true_eq, ge_iff_le]
  refine ⟨⟨by decide, by norm_num⟩, by norm_num⟩

/-- Concrete comparator value: `V1` does not sort before `V2` descending. -/
theorem localeDesc_clipV1_clipV2 : localeDesc clipV1 clipV2 = false := by
  simp only [localeDesc, clipV1, clipV2, decide_eq_false_iff_not]
  rw [String.le_iff_toList_le]
  decide

/-- Evaluation of `RenderGraph.resolve` on Scenario B: only the topmost
(`V2`) clip comes back. -/
theorem resolve_scenarioB :
    resolve 1 [clipV1, clipV2] [assetA1, assetA2] = some (clipV2, assetA2) := by
  have hfil : [clipV1, clipV2].filter (visibleOnV 1) = [clipV1, clipV2] := by
    simp [List.filter_cons, visibleOnV_one_clipV1, visibleOnV_one_clipV2]
  have hsort : [clipV1, clipV2].mergeSort localeDesc = [clipV2, clipV1] := by
    rw [mergeSort_pair, localeDesc_clipV1_clipV2]
    simp
  simp only [resolve, hfil, hsort]
  simp [List.find?, clipV1, clipV2, assetA1, assetA2]

/-- Evaluation of `RenderGraph.resolve` on a single clip that lies on the
muted video track `V1`. -/
theorem resolve_singleMutedV1 :
    resolve 1 [clipV1] [assetA1] = some (clipV1, assetA1) := by
  have hfil : [clipV1].filter (visibleOnV 1) = [clipV1] := by
    simp [List.filter_cons, visibleOnV_one_clipV1]
  simp only [resolve, hfil, List.mergeSort_singleton]
  simp [List.find?, clipV1, assetA1]

/-- Claim C3 (corrected claim refuted): at Scenario B's input the resolved
sequence is `[V2-clip]` only — the still-visible `V1` clip is dropped, so
`resolve` does not return all visible clips in ascending z-order. -/
theorem C3_resolve_drops_lower_layer :
    resolvedSeq 1 [clipV1, clipV2] [assetA1, assetA2] = [clipV2] ∧
      resolvedSeq 1 [clipV1, clipV2] [assetA1, assetA2] ≠ [clipV1, clipV2] ∧
      visibleOnV 1 clipV1 = true := by
  have h : resolvedSeq 1 [clipV1, clipV2] [assetA1, assetA2] = [clipV2] := by
    simp [resolvedSeq, resolve_scenarioB]
  refine ⟨h, ?_, visibleOnV_one_clipV1⟩
  rw [h]
  decide

/-- Claim C3 (amended): `RenderGraph.resolve` returns at most one layer —
the single topmost visible clip (maximal `trackId` among the visible
clips); on Scenario B it returns only the `V2` clip.  The export engine's
separate multi-layer path does keep all active clips, ordered ascending by
`zIndex` so later entries paint on top. -/
theorem C3_amended_topmost_only :
    (∀ (t : ℚ) (clips : List Clip) (assets : List Asset),
        (resolvedSeq t clips assets).length ≤ 1) ∧
      (∀ (t : ℚ) (clips : List Clip) (assets : List Asset) (c : Clip) (a : Asset),
        resolve t clips assets = some (c, a) →
          ∀ c' ∈ clips, visibleOnV t c' = true → c'.trackId ≤ c.trackId) ∧
      resolve 1 [clipV1, clipV2] [assetA1, assetA2] = some (clipV2, assetA2) ∧
      activeClipsExport 1 [exClipBot, exClipTop] = [exClipBot, exClipTop] := by
  refine ⟨?_, ?_, resolve_scenarioB, ?_⟩
  · intro t clips assets
    unfold resolvedSeq
    cases h : resolve t clips assets <;> simp [h]
  · intro t clips assets c a h
    exact (resolve_eq_some_spec h).2.2
  · have hb : isActive 1 exClipBot = true := by
      simp only [isActive, exClipBot, Bool.and_eq_true, decide_eq_true_eq, ge_iff_le]
      refine ⟨by norm_num, by norm_num⟩
    have ht : isActive 1 exClipTop = true := by
      simp only [isActive, exClipTop, Bool.and_eq_true, decide_eq_true_eq, ge_iff_le]
      refine ⟨by norm_num, by norm_num⟩
    have hz : zAsc exClipBot exClipTop = true := by decide
    unfold activeClipsExport
    rw [show [exClipBot, exClipTop].filter (isActive 1) = [exClipBot, exClipTop] from by
      simp [List.filter_cons, hb, ht]]
    rw [mergeSort_pair, hz]
    simp

/-- Witness for `C3_amended_topmost_only`: its maximality part applied at
Scenario B shows the dropped `V1` clip sorts below the returned `V2` clip. -/
theorem C3_amended_topmost_only_witness :
    clipV1.trackId ≤ clipV2.trackId :=
  C3_amended_topmost_only.2.1 1 [clipV1, clipV2] [assetA1, assetA2] clipV2 assetA2
    resolve_scenarioB clipV1 (by simp) visibleOnV_one_clipV1

/-- Claim C8 (corrected claim refuted): the mute flag is never consulted —
a clip sitting on a muted video track is still returned by the resolver and
still enters the export engine's active layer list. -/
theorem C8_muted_track_not_excluded :
    mutedTrackV1.isMuted = true ∧ clipV1.trackId = mutedTrackV1.id ∧
      resolve 1 [clipV1] [assetA1] = some (clipV1, assetA1) ∧
      clipV1 ∈ activeClipsExport 1 [clipV1] := by
  refine ⟨rfl, rfl, resolve_singleMutedV1, ?_⟩
  exact mem_activeClipsExport.mpr ⟨by simp, by norm_num [clipV1], by norm_num [clipV1]⟩

/-- Claim C8 (amended): clips on audio tracks are excluded — any clip
`RenderGraph.resolve` returns lies on a `V`-prefixed (video) track, and the
export engine draws nothing for an audio-kind clip; the muted-track
exclusion, however, does not exist in the code. -/
theorem C8_amended_audio_excluded :
    (∀ (t : ℚ) (clips : List Clip) (assets : List Asset) (c : Clip) (a : Asset),
        resolve t clips assets = some (c, a) → strStartsWith c.trackId "V" = true) ∧
      (∀ (env : LoadEnv) (c : Clip), c.type = MediaType.AUDIO →
        drawClip env c = Except.ok none) := by
  constructor
  · intro t clips assets c a h
    have hvis := (resolve_eq_some_spec h).2.1
    simp only [visibleOnV, Bool.and_eq_true] at hvis
    exact hvis.1.1
  · intro env c htype
    unfold drawClip getSource
    cases hu : c.url with
    | none => rfl
    | some u =>
      rw [htype]

/-- Witness for `C8_amended_audio_excluded`: the muted-track clip resolved
above indeed lies on a `V` track, and the concrete audio clip draws
nothing. -/
theorem C8_amended_audio_excluded_witness :
    strStartsWith clipV1.trackId "V" = true ∧
      drawClip envAllOk audioClip = Except.ok none :=
  ⟨C8_amended_audio_excluded.1 1 [clipV1] [assetA1] clipV1 assetA1 resolve_singleMutedV1,
    C8_amended_audio_excluded.2 envAllOk audioClip rfl⟩

/-! ## Export-job claims -/

/-- Claim C7 (confirmed): a run with no cancellation and no load failure
submits exactly `totalFrames = ceil(duration * fps)` frames to the encoder
and completes (then `finalize` runs); `ceil(2 * 10) = 20`. -/
theorem C7_total_frames_encoded :
    (∀ (cancelled : ℕ → Bool) (env : LoadEnv) (clips : List Clip) (duration fps : ℚ),
        (∀ i, cancelled i = false) →
        (∀ c ∈ clips, ∀ u, c.url = some u → env u = true) →
        (exportJobRun cancelled env clips duration fps).1.length =
            totalFramesFor duration fps ∧
          (exportJobRun cancelled env clips duration fps).2 = JobOutcome.completed) ∧
      totalFramesFor 2 10 = 20 := by
  constructor
  · intro cancelled env clips duration fps hc hload
    have hf : ∀ i, ∃ v, frameAt env clips fps i = Except.ok v :=
      fun i => renderFrame_isOk hload
    have h := renderLoop_completed hc hf (totalFramesFor duration fps) 0
    exact ⟨h.2, h.1⟩
  · norm_num [totalFramesFor]
    rfl

/-- Witness for `C7_total_frames_encoded`: Scenario C — duration 2 s at
10 fps yields exactly 20 encoded frames and a completed run. -/
theorem C7_total_frames_encoded_witness :
    (exportJobRun (fun _ => false) envAllOk [imgL1] 2 10).1.length =
        totalFramesFor 2 10 ∧
      (exportJobRun (fun _ => false) envAllOk [imgL1] 2 10).2 =
        JobOutcome.completed :=
  C7_total_frames_encoded.1 (fun _ => false) envAllOk [imgL1] 2 10
    (fun _ => rfl) (by intro c hc u hu; rfl)

/-- Clips of the three-layer scenarios all pass the active filter at 0. -/
theorem activeClips_L123 :
    activeClipsExport 0 [imgL1, imgL2, imgL3] = [imgL1, imgL2, imgL3] := by
  have h1 : isActive 0 imgL1 = true := by
    simp only [isActive, imgL1, Bool.and_eq_true, decide_eq_true_eq, ge_iff_le]
    refine ⟨by norm_num, by norm_num⟩
  have h2 : isActive 0 imgL2 = true := by
    simp only [isActive, imgL2, Bool.and_eq_true, decide_eq_true_eq, ge_iff_le]
    refine ⟨by norm_num, by norm_num⟩
  have h3 : isActive 0 imgL3 = true := by
    simp only [isActive, imgL3, Bool.and_eq_true, decide_eq_true_eq, ge_iff_le]
    refine ⟨by norm_num, by norm_num⟩
  unfold activeClipsExport
  rw [show [imgL1, imgL2, imgL3].filter (isActive 0) = [imgL1, imgL2, imgL3] from by
    simp [List.filter_cons, h1, h2, h3]]
  apply List.mergeSort_of_sorted
  simp [List.pairwise_cons, zAsc, imgL1, imgL2, imgL3]

/-- Same with the middle layer's asset unresolvable (no url). -/
theorem activeClips_L1NoUrlL3 :
    activeClipsExport 0 [imgL1, imgL2NoUrl, imgL3] = [imgL1, imgL2NoUrl, imgL3] := by
  have h1 : isActive 0 imgL1 = true := by
    simp only [isActive, imgL1, Bool.and_eq_true, decide_eq_true_eq, ge_iff_le]
    refine ⟨by norm_num, by norm_num⟩
  have h2 : isActive 0 imgL2NoUrl = true := by
    simp only [isActive, imgL2NoUrl, Bool.and_eq_true, decide_eq_true_eq, ge_iff_le]
    refine ⟨by norm_num, by norm_num⟩
  have h3 : isActive 0 imgL3 = true := by
    simp only [isActive, imgL3, Bool.and_eq_true, decide_eq_true_eq, ge_iff_le]
    refine ⟨by norm_num, by norm_num⟩
  unfold activeClipsExport
  rw [show [imgL1, imgL2NoUrl, imgL3].filter (isActive 0) = [imgL1, imgL2NoUrl, imgL3] from by
    simp [List.filter_cons, h1, h2, h3]]
  apply List.mergeSort_of_sorted
  simp [List.pairwise_cons, zAsc, imgL1, imgL2NoUrl, imgL3]

/-- Frame 0 of the three-layer job whose middle asset errors on load: the
rejection propagates out of the frame render. -/
theorem frameAt_threeLayers_fails :
    frameAt envU2Fails [imgL1, imgL2, imgL3] 1 0 = Except.error "media load error" := by
  unfold frameAt renderFrame
  rw [show ((0 : ℕ) : ℚ) * (1 / 1) = 0 from by norm_num, activeClips_L123]
  rfl

/-- Claim C1 (corrected claim refuted): an asset that fails to load for a
single clip among three active layers is not skipped — the rejection
escapes `renderFrame`, is caught at the job boundary, and the whole export
ends FAILED rather than COMPLETED. -/
theorem C1_load_failure_fails_job :
    (exportJobRun (fun _ => false) envU2Fails [imgL1, imgL2, imgL3] 1 1).2 =
      JobOutcome.failed "media load error" := by
  unfold exportJobRun
  rw [show totalFramesFor 1 1 = 1 from by norm_num [totalFramesFor]]
  simp [renderLoop, frameAt_threeLayers_fails]

/-- Claim C1 (amended): only a clip whose asset fails to RESOLVE (no url)
is skipped — without any log line — and the job still completes with the
output reflecting the remaining layers; a failing LOAD fails the job (see
the counterexample). -/
theorem C1_amended_resolve_failure_skipped :
    (∀ (env : LoadEnv) (clips : List Clip) (duration fps : ℚ),
        (∀ c ∈ clips, ∀ u, c.url = some u → env u = true) →
        (exportJobRun (fun _ => false) env clips duration fps).2 =
          JobOutcome.completed) ∧
      renderFrame envAllOk 0 [imgL1, imgL2NoUrl, imgL3] =
        Except.ok [⟨"L1", Source.image "u1"⟩, ⟨"L3", Source.image "u3"⟩] := by
  constructor
  · intro env clips duration fps hload
    have hf : ∀ i, ∃ v, frameAt env clips fps i = Except.ok v :=
      fun i => renderFrame_isOk hload
    exact (renderLoop_completed (fun _ => rfl) hf (totalFramesFor duration fps) 0).1
  · unfold renderFrame
    rw [activeClips_L1NoUrlL3]
    rfl

/-- Witness for `C1_amended_resolve_failure_skipped`: the concrete job over
the three layers with the unresolvable middle asset completes. -/
theorem C1_amended_resolve_failure_skipped_witness :
    (exportJobRun (fun _ => false) envAllOk [imgL1, imgL2NoUrl, imgL3] 1 1).2 =
      JobOutcome.completed :=
  C1_amended_resolve_failure_skipped.1 envAllOk [imgL1, imgL2NoUrl, imgL3] 1 1
    (by intro c hc u hu; rfl)

end Illumi
